import Mathlib

/-!
Verification of the data-ingestion pipeline of the baby-names dashboard
(`Lab_9.py`: `load_national_data`, `load_state_data`) and of the MLB
dashboard loader (`blog_post_3_streamlit.py`: `load_data`).

The embedding models an archive as a list of named text entries, a
dataframe as a list of column names together with a list of rows of
cells, and the `st.cache_data` memoization as explicit cache state with
a fetch counter.  Library calls (`pd.read_csv`, `df.columns = ...`,
`pd.concat`) are modelled as explicit functions; where the library's
behaviour is not code of this repository, the model follows the spec's
description of it and says so in the doc comment.
-/

set_option autoImplicit false

/-- A cell value of a dataframe: either a string or an inferred integer
(`pd.read_csv` converts purely numeric fields to integers). -/
inductive Value where
  | str : String → Value
  | int : Int → Value
deriving DecidableEq, Repr

/-- A dataframe: named columns and rows of cells. -/
structure Frame where
  columns : List String
  rows : List (List Value)
deriving DecidableEq, Repr

/-- One named member of a zip archive, with its text content. -/
structure Entry where
  name : String
  content : String
deriving DecidableEq, Repr

/-- An archive is its list of entries, in enumeration (`z.namelist()`) order. -/
abbrev Archive := List Entry

/-- `leadsWith p l` is true when `p` is an initial segment of `l`. -/
def leadsWith : List Char → List Char → Bool
  | [], _ => true
  | _ :: _, [] => false
  | a :: as, b :: bs => a == b && leadsWith as bs

/-- Python `s.endswith(suf)`: case-sensitive suffix test. -/
def endswith (s suf : String) : Bool :=
  leadsWith suf.toList.reverse s.toList.reverse

/-- Python slice `s[a:b]`: the characters at indices `a` to `b-1`, silently
truncated when the string is shorter; never an error. -/
def pySlice (s : String) (a b : Nat) : String :=
  ⟨(s.toList.drop a).take (b - a)⟩

/-- Digits to the number they denote, most significant first. -/
def digitsToNat (l : List Char) : Nat :=
  l.foldl (fun acc c => acc * 10 + (c.toNat - 48)) 0

/-- Drop whitespace from both ends of a character list. -/
def stripChars (l : List Char) : List Char :=
  ((l.dropWhile Char.isWhitespace).reverse.dropWhile Char.isWhitespace).reverse

/-- Python `int(s)`: strip whitespace, optional sign, then a nonempty run of
digits; `none` models the `ValueError` raised on anything else. -/
def pyIntCore (s : String) : Option Int :=
  match stripChars s.toList with
  | '-' :: rest =>
      if !rest.isEmpty && rest.all Char.isDigit then some (-(digitsToNat rest : Int)) else none
  | '+' :: rest =>
      if !rest.isEmpty && rest.all Char.isDigit then some (digitsToNat rest : Int) else none
  | t =>
      if !t.isEmpty && t.all Char.isDigit then some (digitsToNat t : Int) else none

/-- Split a character list at every occurrence of the separator. -/
def splitOnChar (c : Char) : List Char → List (List Char)
  | [] => [[]]
  | x :: xs =>
    let r := splitOnChar c xs
    if x = c then [] :: r
    else
      match r with
      | [] => [[x]]
      | h :: t => (x :: h) :: t

/-- One CSV field, with `pd.read_csv`'s numeric inference: a field that reads
as an integer becomes an integer cell, anything else stays a string. -/
def parseCell (l : List Char) : Value :=
  match pyIntCore ⟨l⟩ with
  | some n => Value.int n
  | none => Value.str ⟨l⟩

/-- Modelled from the spec: `pd.read_csv(f, header=None)` on the entry's
content — "parse its content as comma-delimited text with NO header row".
Blank lines are skipped (the library's default), every other line is split
on commas into cells. -/
def read_csv (content : String) : List (List Value) :=
  ((splitOnChar '\n' content.toList).filter (fun l => !l.isEmpty)).map
    (fun line => (splitOnChar ',' line).map parseCell)

/-- Modelled from the spec: `df.columns = cols`, the positional assignment of
the fixed schema — a "malformed row (wrong field count)" fails the whole
extraction for that entry, so the assignment errors unless every row has
exactly as many fields as there are column names. -/
def set_columns (cols : List String) (rows : List (List Value)) : Except String Frame :=
  if rows.all (fun r => r.length == cols.length) then .ok ⟨cols, rows⟩
  else .error "Length mismatch: columns do not match values"

/-- Modelled from the spec: `pd.concat(dfs, ignore_index=True)` — row-wise
concatenation in list order, requiring identical column sets ("assembler
fails if any entry produced a different column set") and failing on an
empty input list (the library raises `ValueError: No objects to
concatenate`). -/
def pdConcat : List Frame → Except String Frame
  | [] => .error "No objects to concatenate"
  | f :: fs =>
    if fs.all (fun g => g.columns == f.columns) then
      .ok ⟨f.columns, ((f :: fs).map Frame.rows).flatten⟩
    else .error "different column sets"

/-- The national schema assigned positionally: `['name', 'sex', 'count']`. -/
def natCols : List String := ["name", "sex", "count"]

/-- The state schema assigned positionally:
`['state', 'sex', 'year', 'name', 'count']`. -/
def stateCols : List String := ["state", "sex", "year", "name", "count"]

/-- The body of the `for file in files` loop of `load_national_data`:
parse the entry's content as headerless CSV, assign the national columns,
then `df['year'] = int(file[3:7])` — append a `year` column holding the
integer parsed from the slice `[3:7]` of the entry name. -/
def extract_national_entry (e : Entry) : Except String Frame :=
  match set_columns natCols (read_csv e.content) with
  | .error m => .error m
  | .ok df =>
    match pyIntCore (pySlice e.name 3 7) with
    | none => .error "invalid literal for int with base 10"
    | some y => .ok ⟨df.columns ++ ["year"], df.rows.map (fun r => r ++ [Value.int y])⟩

/-- The body of the state loop: parse the entry's content as headerless CSV
and assign the five state columns; no derived column. -/
def extract_state_entry (e : Entry) : Except String Frame :=
  set_columns stateCols (read_csv e.content)

/-- Run an entry extractor over a list of entries, stopping at the first
failure, exactly as the Python loop lets the first exception escape. -/
def mapExcept {α β : Type} (g : α → Except String β) : List α → Except String (List β)
  | [] => .ok []
  | a :: as =>
    match g a with
    | .error m => .error m
    | .ok b =>
      match mapExcept g as with
      | .error m => .error m
      | .ok bs => .ok (b :: bs)

/-- Whether a fallible step succeeded. -/
def okB {α : Type} : Except String α → Bool
  | .ok _ => true
  | .error _ => false

/-- `load_national_data` on a fetched archive: keep the entries whose name
ends in `.txt` (case-sensitive), extract each in enumeration order, and
concatenate the per-entry frames. -/
def load_national_data (z : Archive) : Except String Frame :=
  match mapExcept extract_national_entry (z.filter (fun e => endswith e.name ".txt")) with
  | .error m => .error m
  | .ok dfs => pdConcat dfs

/-- `load_state_data` on a fetched archive: keep the entries whose name ends
in `.TXT` (case-sensitive), extract each in enumeration order, and
concatenate the per-entry frames. -/
def load_state_data (z : Archive) : Except String Frame :=
  match mapExcept extract_state_entry (z.filter (fun e => endswith e.name ".TXT")) with
  | .error m => .error m
  | .ok dfs => pdConcat dfs

/-- The remote world: what each of the two fixed URLs serves. One fetch is
one `requests.get` of the corresponding archive. -/
structure World where
  national_archive : Archive
  state_archive : Archive

/-- Modelled from the spec: the `st.cache_data` store, one slot per dataset
key — "mapping from a source identifier ... to the fully assembled
Dataset"; a slot is `none` until the first successful load. -/
structure CacheState where
  national_cache : Option Frame
  state_cache : Option Frame
deriving DecidableEq, Repr

instance {ε α : Type} [DecidableEq ε] [DecidableEq α] : DecidableEq (Except ε α)
  | .error a, .error b =>
    if h : a = b then isTrue (by rw [h]) else isFalse (by intro hh; cases hh; exact h rfl)
  | .error _, .ok _ => isFalse (by intro h; cases h)
  | .ok _, .error _ => isFalse (by intro h; cases h)
  | .ok a, .ok b =>
    if h : a = b then isTrue (by rw [h]) else isFalse (by intro hh; cases hh; exact h rfl)

/-- Outcome of one call to a cached loader: the returned value, the cache
afterwards, and how many network fetches the call performed. -/
structure CallResult where
  result : Except String Frame
  cache : CacheState
  fetches : Nat
deriving DecidableEq, Repr

/-- Modelled from the spec: one call to the cached `load_national_data` —
a filled slot is returned with no fetch; an empty slot runs the full
fetch+extract+assemble pipeline (one fetch), storing the result only on
success (a failed attempt does not poison the cache). -/
def call_national (w : World) (c : CacheState) : CallResult :=
  match c.national_cache with
  | some d => ⟨.ok d, c, 0⟩
  | none =>
    match load_national_data w.national_archive with
    | .ok d => ⟨.ok d, ⟨some d, c.state_cache⟩, 1⟩
    | .error m => ⟨.error m, c, 1⟩

/-- Modelled from the spec: one call to the cached `load_state_data`,
symmetric to `call_national`. -/
def call_state (w : World) (c : CacheState) : CallResult :=
  match c.state_cache with
  | some d => ⟨.ok d, c, 0⟩
  | none =>
    match load_state_data w.state_archive with
    | .ok d => ⟨.ok d, ⟨c.national_cache, some d⟩, 1⟩
    | .error m => ⟨.error m, c, 1⟩

/-- `n` successive calls to the cached national loader: the list of returned
values, the final cache, and the total number of fetches performed. -/
def call_national_times (w : World) : CacheState → Nat → List (Except String Frame) × CacheState × Nat
  | c, 0 => ([], c, 0)
  | c, n + 1 =>
    let r := call_national w c
    let rest := call_national_times w r.cache n
    (r.result :: rest.1, rest.2.1, r.fetches + rest.2.2)

/-- `n` successive calls to the cached state loader. -/
def call_state_times (w : World) : CacheState → Nat → List (Except String Frame) × CacheState × Nat
  | c, 0 => ([], c, 0)
  | c, n + 1 =>
    let r := call_state w c
    let rest := call_state_times w r.cache n
    (r.result :: rest.1, rest.2.1, r.fetches + rest.2.2)

/-- `c` starts with `"Unnamed"`: what `df.columns.str.contains('^Unnamed')`
matches. -/
def startsUnnamed (c : String) : Bool :=
  leadsWith "Unnamed".toList c.toList

/-- `df.loc[:, ~df.columns.str.contains('^Unnamed')]`: drop every column
whose name begins with `Unnamed`, keeping each row's cells aligned with the
surviving columns. -/
def dropUnnamedCols (df : Frame) : Frame :=
  { columns := df.columns.filter (fun c => !startsUnnamed c),
    rows := df.rows.map (fun r =>
      ((df.columns.zip r).filter (fun p => !startsUnnamed p.1)).map Prod.snd) }

/-- The cell of a row under a named column: position of the column name in
the column list, then that position in the row. -/
def cellAt (cols : List String) (r : List Value) (c : String) : Option Value :=
  (cols.findIdx? (fun x => x = c)).bind (fun i => r.get? i)

/-- `df[df['Team'] != '2TM']`: keep the rows whose `Team` cell is not the
string `'2TM'`. -/
def filterTeam (df : Frame) : Frame :=
  { columns := df.columns,
    rows := df.rows.filter (fun r => !(cellAt df.columns r "Team" == some (Value.str "2TM"))) }

/-- The MLB `load_data` after the fetch: drop the `Unnamed` columns of the
fetched table, then drop the `2TM` combined-total rows. -/
def load_data (df : Frame) : Frame :=
  filterTeam (dropUnnamedCols df)

/-! ## Helper lemmas -/

theorem mapExcept_ok_of_forall {α β : Type} (g : α → Except String β) (h : α → β) :
    ∀ l : List α, (∀ a ∈ l, g a = .ok (h a)) → mapExcept g l = .ok (l.map h)
  | [], _ => rfl
  | a :: as, H => by
    have ha := H a (List.mem_cons_self a as)
    have ih := mapExcept_ok_of_forall g h as (fun b hb => H b (List.mem_cons_of_mem a hb))
    simp [mapExcept, ha, ih]

theorem mapExcept_error_of_mem {α β : Type} (g : α → Except String β) (m : String) :
    ∀ (l : List α) (a : α), a ∈ l → g a = .error m → ∃ m2, mapExcept g l = .error m2
  | b :: bs, a, hmem, herr => by
    rcases List.mem_cons.mp hmem with h | h
    · subst h
      exact ⟨m, by simp [mapExcept, herr]⟩
    · match hgb : g b with
      | .error m3 => exact ⟨m3, by simp [mapExcept, hgb]⟩
      | .ok v =>
        obtain ⟨m2, hm2⟩ := mapExcept_error_of_mem g m bs a h herr
        exact ⟨m2, by simp [mapExcept, hgb, hm2]⟩

theorem pdConcat_ok (c : List String) :
    ∀ fs : List Frame, fs ≠ [] → (∀ f ∈ fs, f.columns = c) →
      pdConcat fs = .ok ⟨c, (fs.map Frame.rows).flatten⟩
  | [], hne, _ => absurd rfl hne
  | f :: fs, _, hall => by
    have hf : f.columns = c := hall f (List.mem_cons_self f fs)
    have hcond : fs.all (fun g => g.columns == f.columns) = true := by
      rw [List.all_eq_true]
      intro g hg
      have := hall g (List.mem_cons_of_mem f hg)
      simp [this, hf]
    simp only [pdConcat, hcond]
    simp [hf]

theorem set_columns_ok (cols : List String) (rows : List (List Value)) (f : Frame)
    (h : set_columns cols rows = .ok f) : f = ⟨cols, rows⟩ := by
  unfold set_columns at h
  split at h
  · injection h with h1
    exact h1.symm
  · cases h

theorem set_columns_error (cols : List String) (rows : List (List Value)) (r : List Value)
    (hr : r ∈ rows) (hlen : r.length ≠ cols.length) :
    set_columns cols rows = .error "Length mismatch: columns do not match values" := by
  unfold set_columns
  rw [if_neg]
  intro hall
  exact hlen (by simpa using List.all_eq_true.mp hall r hr)

theorem extract_national_columns (e : Entry) (f : Frame)
    (h : extract_national_entry e = .ok f) :
    f.columns = ["name", "sex", "count", "year"] := by
  unfold extract_national_entry at h
  cases hsc : set_columns natCols (read_csv e.content) with
  | error m => rw [hsc] at h; cases h
  | ok df =>
    rw [hsc] at h
    cases hy : pyIntCore (pySlice e.name 3 7) with
    | none => rw [hy] at h; cases h
    | some y =>
      rw [hy] at h
      injection h with h1
      have hdf : df = ⟨natCols, read_csv e.content⟩ := set_columns_ok _ _ _ hsc
      rw [← h1, hdf]
      rfl

theorem extract_state_columns (e : Entry) (f : Frame)
    (h : extract_state_entry e = .ok f) :
    f.columns = ["state", "sex", "year", "name", "count"] := by
  have := set_columns_ok _ _ _ h
  rw [this]
  rfl

theorem extract_national_error_of_bad_row (e : Entry) (r : List Value)
    (hr : r ∈ read_csv e.content) (hlen : r.length ≠ 3) :
    extract_national_entry e = .error "Length mismatch: columns do not match values" := by
  have hsc := set_columns_error natCols (read_csv e.content) r hr hlen
  simp [extract_national_entry, hsc]

theorem extract_state_error_of_bad_row (e : Entry) (r : List Value)
    (hr : r ∈ read_csv e.content) (hlen : r.length ≠ 5) :
    extract_state_entry e = .error "Length mismatch: columns do not match values" := by
  exact set_columns_error stateCols (read_csv e.content) r hr hlen

theorem call_national_ok_cache (w : World) (c : CacheState) (d : Frame)
    (h : (call_national w c).result = .ok d) :
    (call_national w c).cache.national_cache = some d := by
  cases hc : c.national_cache with
  | some x =>
    simp [call_national, hc] at h ⊢
    exact h
  | none =>
    cases hl : load_national_data w.national_archive with
    | ok v =>
      simp [call_national, hc, hl] at h ⊢
      exact h
    | error m =>
      simp [call_national, hc, hl] at h

theorem call_state_ok_cache (w : World) (c : CacheState) (d : Frame)
    (h : (call_state w c).result = .ok d) :
    (call_state w c).cache.state_cache = some d := by
  cases hc : c.state_cache with
  | some x =>
    simp [call_state, hc] at h ⊢
    exact h
  | none =>
    cases hl : load_state_data w.state_archive with
    | ok v =>
      simp [call_state, hc, hl] at h ⊢
      exact h
    | error m =>
      simp [call_state, hc, hl] at h

theorem call_national_times_hit (w : World) (c : CacheState) (d : Frame)
    (h : c.national_cache = some d) :
    ∀ n, call_national_times w c n = (List.replicate n (.ok d), c, 0)
  | 0 => rfl
  | n + 1 => by
    have hcall : call_national w c = ⟨.ok d, c, 0⟩ := by simp [call_national, h]
    simp [call_national_times, hcall, call_national_times_hit w c d h n, List.replicate_succ]

theorem call_state_times_hit (w : World) (c : CacheState) (d : Frame)
    (h : c.state_cache = some d) :
    ∀ n, call_state_times w c n = (List.replicate n (.ok d), c, 0)
  | 0 => rfl
  | n + 1 => by
    have hcall : call_state w c = ⟨.ok d, c, 0⟩ := by simp [call_state, h]
    simp [call_state_times, hcall, call_state_times_hit w c d h n, List.replicate_succ]

/-! ## Claim theorems -/

/-- C1: extracting a national archive entry named `abc1999.txt` whose content
is the single headerless row `John,M,100` produces exactly the record
`(name John, sex M, count 100, year 1999)`, where the year is the integer
parse of the 4-character slice `[3:7]` of the entry name and name/sex/count
are assigned positionally from the row. -/
theorem national_single_entry_record :
    pySlice "abc1999.txt" 3 7 = "1999"
    ∧ pyIntCore (pySlice "abc1999.txt" 3 7) = some 1999
    ∧ load_national_data [⟨"abc1999.txt", "John,M,100"⟩]
        = .ok ⟨["name", "sex", "count", "year"],
               [[Value.str "John", Value.str "M", Value.int 100, Value.int 1999]]⟩ := by
  refine ⟨?_, ?_, ?_⟩ <;> decide

/-- C9: when no entry of the archive matches the required suffix, the loader
does not return an empty Dataset — concatenating the empty list of per-entry
frames raises, so the whole load fails. -/
theorem no_matching_entries_load_fails (z w : Archive)
    (hz : z.filter (fun e => endswith e.name ".txt") = [])
    (hw : w.filter (fun e => endswith e.name ".TXT") = []) :
    load_national_data z = .error "No objects to concatenate"
    ∧ load_state_data w = .error "No objects to concatenate" := by
  constructor
  · simp [load_national_data, hz, mapExcept, pdConcat]
  · simp [load_state_data, hw, mapExcept, pdConcat]

/-- Witness for C9: an archive holding one entry named `readme.pdf` matches
neither suffix, and both loads fail. -/
theorem no_matching_entries_load_fails_witness :
    ([⟨"readme.pdf", "x"⟩] : Archive).filter (fun e => endswith e.name ".txt") = []
    ∧ ([⟨"readme.pdf", "x"⟩] : Archive).filter (fun e => endswith e.name ".TXT") = []
    ∧ load_national_data [⟨"readme.pdf", "x"⟩] = .error "No objects to concatenate"
    ∧ load_state_data [⟨"readme.pdf", "x"⟩] = .error "No objects to concatenate" := by
  have h := no_matching_entries_load_fails [⟨"readme.pdf", "x"⟩] [⟨"readme.pdf", "x"⟩]
    (by decide) (by decide)
  exact ⟨by decide, by decide, h.1, h.2⟩

/-- C6: assembling frames among which two have different column sets fails the
whole operation with an error, rather than producing a coerced result. -/
theorem mismatched_columns_assembly_fails (fs : List Frame) (f g : Frame)
    (hf : f ∈ fs) (hg : g ∈ fs) (hne : f.columns ≠ g.columns) :
    ∃ m, pdConcat fs = .error m := by
  match fs with
  | [] => cases hf
  | h :: t =>
    rcases Bool.eq_false_or_eq_true (t.all (fun x => x.columns == h.columns)) with hc | hc
    · exfalso
      have hall : ∀ x ∈ h :: t, x.columns = h.columns := by
        intro x hx
        rcases List.mem_cons.mp hx with h1 | h1
        · rw [h1]
        · exact eq_of_beq (List.all_eq_true.mp hc x h1)
      exact hne ((hall f hf).trans (hall g hg).symm)
    · refine ⟨"different column sets", ?_⟩
      simp only [pdConcat]
      rw [hc]
      simp

/-- Witness for C6: two one-column frames with different column names cannot be
assembled. -/
theorem mismatched_columns_assembly_fails_witness :
    (⟨["a"], []⟩ : Frame) ∈ [(⟨["a"], []⟩ : Frame), ⟨["b"], []⟩]
    ∧ (⟨["b"], []⟩ : Frame) ∈ [(⟨["a"], []⟩ : Frame), ⟨["b"], []⟩]
    ∧ (⟨["a"], []⟩ : Frame).columns ≠ (⟨["b"], []⟩ : Frame).columns
    ∧ ∃ m, pdConcat [(⟨["a"], []⟩ : Frame), ⟨["b"], []⟩] = .error m := by
  exact ⟨by decide, by decide, by decide,
    mismatched_columns_assembly_fails [⟨["a"], []⟩, ⟨["b"], []⟩] ⟨["a"], []⟩ ⟨["b"], []⟩
      (by decide) (by decide) (by decide)⟩

/-- C4: an entry whose name does not end in the case-sensitive required suffix
(`.txt` national, `.TXT` state) contributes no rows and is silently skipped:
each loader only ever looks at the suffix-filtered archive, and an archive of
one matching and one non-matching entry (in either order) yields exactly the
matching entry's frame. -/
theorem nonmatching_suffix_skipped (e1 e2 s1 s2 : Entry) (f g : Frame)
    (h1 : endswith e1.name ".txt" = true)
    (h2 : endswith e2.name ".txt" = false)
    (hx : extract_national_entry e1 = .ok f)
    (h3 : endswith s1.name ".TXT" = true)
    (h4 : endswith s2.name ".TXT" = false)
    (hy : extract_state_entry s1 = .ok g) :
    (∀ z : Archive, load_national_data z
        = load_national_data (z.filter (fun e => endswith e.name ".txt")))
    ∧ (∀ z : Archive, load_state_data z
        = load_state_data (z.filter (fun e => endswith e.name ".TXT")))
    ∧ load_national_data [e1, e2] = .ok f
    ∧ load_national_data [e2, e1] = .ok f
    ∧ load_state_data [s1, s2] = .ok g
    ∧ load_state_data [s2, s1] = .ok g := by
  have hff : ∀ (p : Entry → Bool) (z : List Entry), (z.filter p).filter p = z.filter p := by
    intro p z
    rw [List.filter_filter]
    simp
  refine ⟨?_, ?_, ?_, ?_, ?_, ?_⟩
  · intro z
    unfold load_national_data
    rw [hff _ z]
  · intro z
    unfold load_state_data
    rw [hff _ z]
  · simp [load_national_data, List.filter, h1, h2, mapExcept, hx, pdConcat]
  · simp [load_national_data, List.filter, h1, h2, mapExcept, hx, pdConcat]
  · simp [load_state_data, List.filter, h3, h4, mapExcept, hy, pdConcat]
  · simp [load_state_data, List.filter, h3, h4, mapExcept, hy, pdConcat]

/-- Witness for C4: loading an archive of one matching and one non-matching
entry yields exactly the matching entry's frame, for both loaders. -/
theorem nonmatching_suffix_skipped_witness :
    endswith "abc1999.txt" ".txt" = true
    ∧ endswith "yob2000.TXT" ".txt" = false
    ∧ extract_national_entry ⟨"abc1999.txt", "John,M,100"⟩
        = .ok ⟨["name", "sex", "count", "year"],
               [[Value.str "John", Value.str "M", Value.int 100, Value.int 1999]]⟩
    ∧ endswith "AK.TXT" ".TXT" = true
    ∧ endswith "abc1999.txt" ".TXT" = false
    ∧ extract_state_entry ⟨"AK.TXT", "CA,F,2001,Mary,50"⟩
        = .ok ⟨["state", "sex", "year", "name", "count"],
               [[Value.str "CA", Value.str "F", Value.int 2001, Value.str "Mary", Value.int 50]]⟩
    ∧ load_national_data [⟨"abc1999.txt", "John,M,100"⟩, ⟨"yob2000.TXT", "x"⟩]
        = .ok ⟨["name", "sex", "count", "year"],
               [[Value.str "John", Value.str "M", Value.int 100, Value.int 1999]]⟩
    ∧ load_state_data [⟨"AK.TXT", "CA,F,2001,Mary,50"⟩, ⟨"abc1999.txt", "x"⟩]
        = .ok ⟨["state", "sex", "year", "name", "count"],
               [[Value.str "CA", Value.str "F", Value.int 2001, Value.str "Mary", Value.int 50]]⟩ := by
  have h := nonmatching_suffix_skipped ⟨"abc1999.txt", "John,M,100"⟩ ⟨"yob2000.TXT", "x"⟩
    ⟨"AK.TXT", "CA,F,2001,Mary,50"⟩ ⟨"abc1999.txt", "x"⟩
    ⟨["name", "sex", "count", "year"],
      [[Value.str "John", Value.str "M", Value.int 100, Value.int 1999]]⟩
    ⟨["state", "sex", "year", "name", "count"],
      [[Value.str "CA", Value.str "F", Value.int 2001, Value.str "Mary", Value.int 50]]⟩
    (by decide) (by decide) (by decide) (by decide) (by decide) (by decide)
  exact ⟨by decide, by decide, by decide, by decide, by decide, by decide,
    h.2.2.1, h.2.2.2.2.1⟩

/-- C5: a matching entry holding a row whose field count differs from the
schema's expected count (3 national, 5 state) makes the whole load fail with
an error: no partial dataset is returned. -/
theorem malformed_row_fails_load (z w : Archive) (e s : Entry) (r q : List Value)
    (hez : e ∈ z) (hma : endswith e.name ".txt" = true)
    (hr : r ∈ read_csv e.content) (hlen : r.length ≠ 3)
    (hsw : s ∈ w) (hms : endswith s.name ".TXT" = true)
    (hq : q ∈ read_csv s.content) (hqlen : q.length ≠ 5) :
    (∃ m, load_national_data z = .error m) ∧ ∃ m, load_state_data w = .error m := by
  constructor
  · have hx := extract_national_error_of_bad_row e r hr (by simpa [natCols] using hlen)
    have hmem : e ∈ z.filter (fun e => endswith e.name ".txt") :=
      List.mem_filter.mpr ⟨hez, hma⟩
    obtain ⟨m2, hm2⟩ := mapExcept_error_of_mem extract_national_entry
      "Length mismatch: columns do not match values" _ e hmem hx
    exact ⟨m2, by simp [load_national_data, hm2]⟩
  · have hx := extract_state_error_of_bad_row s q hq (by simpa [stateCols] using hqlen)
    have hmem : s ∈ w.filter (fun e => endswith e.name ".TXT") :=
      List.mem_filter.mpr ⟨hsw, hms⟩
    obtain ⟨m2, hm2⟩ := mapExcept_error_of_mem extract_state_entry
      "Length mismatch: columns do not match values" _ s hmem hx
    exact ⟨m2, by simp [load_state_data, hm2]⟩

/-- Witness for C5: a national entry with a 2-field second row and a state
entry with a 4-field row each fail their whole load. -/
theorem malformed_row_fails_load_witness :
    ([Value.str "Jane", Value.str "F"].length ≠ 3)
    ∧ [Value.str "Jane", Value.str "F"] ∈ read_csv "John,M,100\nJane,F"
    ∧ (∃ m, load_national_data [⟨"abc1999.txt", "John,M,100\nJane,F"⟩] = .error m)
    ∧ ∃ m, load_state_data [⟨"AK.TXT", "CA,F,2001,Mary"⟩] = .error m := by
  have h := malformed_row_fails_load
    [⟨"abc1999.txt", "John,M,100\nJane,F"⟩] [⟨"AK.TXT", "CA,F,2001,Mary"⟩]
    ⟨"abc1999.txt", "John,M,100\nJane,F"⟩ ⟨"AK.TXT", "CA,F,2001,Mary"⟩
    [Value.str "Jane", Value.str "F"]
    [Value.str "CA", Value.str "F", Value.int 2001, Value.str "Mary"]
    (by decide) (by decide) (by decide) (by decide)
    (by decide) (by decide) (by decide) (by decide)
  exact ⟨by decide, by decide, h.1, h.2⟩

/-- C2: when every matching entry of an archive extracts successfully, the
assembled dataset is the row-wise concatenation of the per-entry frames in
archive enumeration order, and its row count is the sum of the per-entry row
counts. -/
theorem assembled_dataset_rowwise_concat (z w : Archive) (fr gr : Entry → Frame)
    (hn1 : z.filter (fun e => endswith e.name ".txt") ≠ [])
    (hn2 : ∀ e ∈ z.filter (fun e => endswith e.name ".txt"),
        extract_national_entry e = .ok (fr e))
    (hs1 : w.filter (fun e => endswith e.name ".TXT") ≠ [])
    (hs2 : ∀ e ∈ w.filter (fun e => endswith e.name ".TXT"),
        extract_state_entry e = .ok (gr e)) :
    (load_national_data z
        = .ok ⟨["name", "sex", "count", "year"],
            ((z.filter (fun e => endswith e.name ".txt")).map
              (fun e => (fr e).rows)).flatten⟩
      ∧ (((z.filter (fun e => endswith e.name ".txt")).map
              (fun e => (fr e).rows)).flatten).length
          = ((z.filter (fun e => endswith e.name ".txt")).map
              (fun e => (fr e).rows.length)).sum)
    ∧ (load_state_data w
        = .ok ⟨["state", "sex", "year", "name", "count"],
            ((w.filter (fun e => endswith e.name ".TXT")).map
              (fun e => (gr e).rows)).flatten⟩
      ∧ (((w.filter (fun e => endswith e.name ".TXT")).map
              (fun e => (gr e).rows)).flatten).length
          = ((w.filter (fun e => endswith e.name ".TXT")).map
              (fun e => (gr e).rows.length)).sum) := by
  constructor
  · have hmap := mapExcept_ok_of_forall extract_national_entry fr
      (z.filter (fun e => endswith e.name ".txt")) hn2
    have hcols : ∀ f ∈ (z.filter (fun e => endswith e.name ".txt")).map fr,
        f.columns = ["name", "sex", "count", "year"] := by
      intro f hf
      obtain ⟨e, he, rfl⟩ := List.mem_map.mp hf
      exact extract_national_columns e _ (hn2 e he)
    have hnemap : (z.filter (fun e => endswith e.name ".txt")).map fr ≠ [] := by
      intro hcontra
      exact hn1 (List.map_eq_nil_iff.mp hcontra)
    have hconc := pdConcat_ok _ _ hnemap hcols
    constructor
    · simp only [load_national_data, hmap, hconc, List.map_map]
      rfl
    · rw [List.length_flatten, List.map_map]
      rfl
  · have hmap := mapExcept_ok_of_forall extract_state_entry gr
      (w.filter (fun e => endswith e.name ".TXT")) hs2
    have hcols : ∀ f ∈ (w.filter (fun e => endswith e.name ".TXT")).map gr,
        f.columns = ["state", "sex", "year", "name", "count"] := by
      intro f hf
      obtain ⟨e, he, rfl⟩ := List.mem_map.mp hf
      exact extract_state_columns e _ (hs2 e he)
    have hnemap : (w.filter (fun e => endswith e.name ".TXT")).map gr ≠ [] := by
      intro hcontra
      exact hs1 (List.map_eq_nil_iff.mp hcontra)
    have hconc := pdConcat_ok _ _ hnemap hcols
    constructor
    · simp only [load_state_data, hmap, hconc, List.map_map]
      rfl
    · rw [List.length_flatten, List.map_map]
      rfl

/-- C3: after a first successful call for a key — national or state — any
number of further calls for that key return from the cache with zero
fetches, while the first call for each of the two distinct keys performs
exactly one fetch each — two in total. -/
theorem cache_fetches_once_per_key (w : World) (c : CacheState) (d e : Frame)
    (h1 : c.national_cache = none) (h2 : c.state_cache = none)
    (hok : (call_national w c).result = .ok d)
    (hok2 : (call_state w (call_national w c).cache).result = .ok e) :
    (∀ n, call_national_times w (call_national w c).cache n
        = (List.replicate n (.ok d), (call_national w c).cache, 0))
    ∧ (∀ n, call_state_times w (call_state w (call_national w c).cache).cache n
        = (List.replicate n (.ok e),
           (call_state w (call_national w c).cache).cache, 0))
    ∧ (call_national w c).fetches = 1
    ∧ (call_state w (call_national w c).cache).fetches = 1 := by
  have hcache := call_national_ok_cache w c d hok
  have hcache2 := call_state_ok_cache w (call_national w c).cache e hok2
  refine ⟨fun n => call_national_times_hit w _ d hcache n,
    fun n => call_state_times_hit w _ e hcache2 n, ?_, ?_⟩
  · cases hl : load_national_data w.national_archive <;> simp [call_national, h1, hl]
  · have hst : (call_national w c).cache.state_cache = none := by
      cases hl : load_national_data w.national_archive <;> simp [call_national, h1, hl, h2]
    cases hl2 : load_state_data w.state_archive <;> simp [call_state, hst, hl2]

/-- Witness for C3: starting from an empty cache over concrete archives, two
further national calls and two further state calls fetch nothing, while the
first call for each key is one fetch — two in total. -/
theorem cache_fetches_once_per_key_witness :
    ((⟨none, none⟩ : CacheState).national_cache = none)
    ∧ ((⟨none, none⟩ : CacheState).state_cache = none)
    ∧ (call_national ⟨[⟨"abc1999.txt", "John,M,100"⟩], [⟨"AK.TXT", "CA,F,2001,Mary,50"⟩]⟩
        ⟨none, none⟩).result
        = .ok ⟨["name", "sex", "count", "year"],
               [[Value.str "John", Value.str "M", Value.int 100, Value.int 1999]]⟩
    ∧ (call_state ⟨[⟨"abc1999.txt", "John,M,100"⟩], [⟨"AK.TXT", "CA,F,2001,Mary,50"⟩]⟩
        (call_national ⟨[⟨"abc1999.txt", "John,M,100"⟩], [⟨"AK.TXT", "CA,F,2001,Mary,50"⟩]⟩
          ⟨none, none⟩).cache).result
        = .ok ⟨["state", "sex", "year", "name", "count"],
               [[Value.str "CA", Value.str "F", Value.int 2001, Value.str "Mary", Value.int 50]]⟩
    ∧ call_national_times ⟨[⟨"abc1999.txt", "John,M,100"⟩], [⟨"AK.TXT", "CA,F,2001,Mary,50"⟩]⟩
        (call_national ⟨[⟨"abc1999.txt", "John,M,100"⟩], [⟨"AK.TXT", "CA,F,2001,Mary,50"⟩]⟩
          ⟨none, none⟩).cache 2
        = (List.replicate 2 (.ok ⟨["name", "sex", "count", "year"],
            [[Value.str "John", Value.str "M", Value.int 100, Value.int 1999]]⟩),
           (call_national ⟨[⟨"abc1999.txt", "John,M,100"⟩], [⟨"AK.TXT", "CA,F,2001,Mary,50"⟩]⟩
             ⟨none, none⟩).cache, 0)
    ∧ call_state_times ⟨[⟨"abc1999.txt", "John,M,100"⟩], [⟨"AK.TXT", "CA,F,2001,Mary,50"⟩]⟩
        (call_state ⟨[⟨"abc1999.txt", "John,M,100"⟩], [⟨"AK.TXT", "CA,F,2001,Mary,50"⟩]⟩
          (call_national ⟨[⟨"abc1999.txt", "John,M,100"⟩], [⟨"AK.TXT", "CA,F,2001,Mary,50"⟩]⟩
            ⟨none, none⟩).cache).cache 2
        = (List.replicate 2 (.ok ⟨["state", "sex", "year", "name", "count"],
            [[Value.str "CA", Value.str "F", Value.int 2001, Value.str "Mary", Value.int 50]]⟩),
           (call_state ⟨[⟨"abc1999.txt", "John,M,100"⟩], [⟨"AK.TXT", "CA,F,2001,Mary,50"⟩]⟩
             (call_national ⟨[⟨"abc1999.txt", "John,M,100"⟩], [⟨"AK.TXT", "CA,F,2001,Mary,50"⟩]⟩
               ⟨none, none⟩).cache).cache, 0)
    ∧ (call_national ⟨[⟨"abc1999.txt", "John,M,100"⟩], [⟨"AK.TXT", "CA,F,2001,Mary,50"⟩]⟩
        ⟨none, none⟩).fetches = 1
    ∧ (call_state ⟨[⟨"abc1999.txt", "John,M,100"⟩], [⟨"AK.TXT", "CA,F,2001,Mary,50"⟩]⟩
        (call_national ⟨[⟨"abc1999.txt", "John,M,100"⟩], [⟨"AK.TXT", "CA,F,2001,Mary,50"⟩]⟩
          ⟨none, none⟩).cache).fetches = 1 := by
  have h := cache_fetches_once_per_key
    ⟨[⟨"abc1999.txt", "John,M,100"⟩], [⟨"AK.TXT", "CA,F,2001,Mary,50"⟩]⟩ ⟨none, none⟩
    ⟨["name", "sex", "count", "year"],
      [[Value.str "John", Value.str "M", Value.int 100, Value.int 1999]]⟩
    ⟨["state", "sex", "year", "name", "count"],
      [[Value.str "CA", Value.str "F", Value.int 2001, Value.str "Mary", Value.int 50]]⟩
    rfl rfl (by decide) (by decide)
  exact ⟨rfl, rfl, by decide, by decide, h.1 2, h.2.1 2, h.2.2.1, h.2.2.2⟩

/-- C7: every call to a cached loader after the first successful one returns
a Dataset element-wise identical to the first call's result. -/
theorem cached_loader_idempotent (w : World) (c c2 : CacheState) (d e : Frame)
    (hn : (call_national w c).result = .ok d)
    (hs : (call_state w c2).result = .ok e) :
    (∀ n, (call_national_times w (call_national w c).cache n).1
        = List.replicate n (.ok d))
    ∧ ∀ n, (call_state_times w (call_state w c2).cache n).1
        = List.replicate n (.ok e) := by
  have h1 := call_national_ok_cache w c d hn
  have h2 := call_state_ok_cache w c2 e hs
  exact ⟨fun n => by rw [call_national_times_hit w _ d h1 n],
    fun n => by rw [call_state_times_hit w _ e h2 n]⟩

/-- Witness for C7: on concrete archives, the three calls after the first
all return the very frame the first call produced, for both keys. -/
theorem cached_loader_idempotent_witness :
    (call_national ⟨[⟨"abc1999.txt", "John,M,100"⟩], [⟨"AK.TXT", "CA,F,2001,Mary,50"⟩]⟩
        ⟨none, none⟩).result
        = .ok ⟨["name", "sex", "count", "year"],
               [[Value.str "John", Value.str "M", Value.int 100, Value.int 1999]]⟩
    ∧ (call_state ⟨[⟨"abc1999.txt", "John,M,100"⟩], [⟨"AK.TXT", "CA,F,2001,Mary,50"⟩]⟩
        ⟨none, none⟩).result
        = .ok ⟨["state", "sex", "year", "name", "count"],
               [[Value.str "CA", Value.str "F", Value.int 2001, Value.str "Mary", Value.int 50]]⟩
    ∧ (call_national_times ⟨[⟨"abc1999.txt", "John,M,100"⟩], [⟨"AK.TXT", "CA,F,2001,Mary,50"⟩]⟩
        (call_national ⟨[⟨"abc1999.txt", "John,M,100"⟩], [⟨"AK.TXT", "CA,F,2001,Mary,50"⟩]⟩
          ⟨none, none⟩).cache 3).1
        = List.replicate 3 (.ok ⟨["name", "sex", "count", "year"],
            [[Value.str "John", Value.str "M", Value.int 100, Value.int 1999]]⟩)
    ∧ (call_state_times ⟨[⟨"abc1999.txt", "John,M,100"⟩], [⟨"AK.TXT", "CA,F,2001,Mary,50"⟩]⟩
        (call_state ⟨[⟨"abc1999.txt", "John,M,100"⟩], [⟨"AK.TXT", "CA,F,2001,Mary,50"⟩]⟩
          ⟨none, none⟩).cache 3).1
        = List.replicate 3 (.ok ⟨["state", "sex", "year", "name", "count"],
            [[Value.str "CA", Value.str "F", Value.int 2001, Value.str "Mary", Value.int 50]]⟩) := by
  have h := cached_loader_idempotent
    ⟨[⟨"abc1999.txt", "John,M,100"⟩], [⟨"AK.TXT", "CA,F,2001,Mary,50"⟩]⟩
    ⟨none, none⟩ ⟨none, none⟩
    ⟨["name", "sex", "count", "year"],
      [[Value.str "John", Value.str "M", Value.int 100, Value.int 1999]]⟩
    ⟨["state", "sex", "year", "name", "count"],
      [[Value.str "CA", Value.str "F", Value.int 2001, Value.str "Mary", Value.int 50]]⟩
    (by decide) (by decide)
  exact ⟨by decide, by decide, h.1 3, h.2 3⟩

/-- C8: the year-extraction slice `[3:7]` is total (no out-of-range error is
possible, the slice silently truncates), so whenever the CSV parse succeeds
and the sliced substring parses as an integer — aligned or not — the entry is
extracted without error and that integer is recorded as the year; in general
extraction succeeds exactly when the CSV step succeeds and the integer parse
of the slice succeeds, the only failure modes. -/
theorem year_slice_total_only_parse_fails (e : Entry) (g : Frame) (y : Int)
    (hg : set_columns natCols (read_csv e.content) = .ok g)
    (hy : pyIntCore (pySlice e.name 3 7) = some y) :
    extract_national_entry e
        = .ok ⟨g.columns ++ ["year"], g.rows.map (fun r => r ++ [Value.int y])⟩
    ∧ ∀ e2 : Entry, okB (extract_national_entry e2)
        = (okB (set_columns natCols (read_csv e2.content))
            && (pyIntCore (pySlice e2.name 3 7)).isSome) := by
  constructor
  · simp [extract_national_entry, hg, hy]
  · intro e2
    cases hsc : set_columns natCols (read_csv e2.content) with
    | error m => simp [extract_national_entry, hsc, okB]
    | ok df =>
      cases hp : pyIntCore (pySlice e2.name 3 7) with
      | none => simp [extract_national_entry, hsc, hp, okB]
      | some y2 => simp [extract_national_entry, hsc, hp, okB]

/-- Witness for C8: the misaligned name `1234567.txt` slices to `4567`, which
parses, so the loader silently records the wrong year 4567; and for the
short name `a.txt` the slice truncates without error and extraction fails
only because the truncated substring does not parse as an integer. -/
theorem year_slice_total_only_parse_fails_witness :
    set_columns natCols (read_csv "John,M,100")
        = .ok ⟨["name", "sex", "count"], [[Value.str "John", Value.str "M", Value.int 100]]⟩
    ∧ pyIntCore (pySlice "1234567.txt" 3 7) = some 4567
    ∧ extract_national_entry ⟨"1234567.txt", "John,M,100"⟩
        = .ok ⟨["name", "sex", "count", "year"],
               [[Value.str "John", Value.str "M", Value.int 100, Value.int 4567]]⟩
    ∧ okB (extract_national_entry ⟨"a.txt", "John,M,100"⟩)
        = (okB (set_columns natCols (read_csv "John,M,100"))
            && (pyIntCore (pySlice "a.txt" 3 7)).isSome) := by
  have h := year_slice_total_only_parse_fails ⟨"1234567.txt", "John,M,100"⟩
    ⟨["name", "sex", "count"], [[Value.str "John", Value.str "M", Value.int 100]]⟩ 4567
    (by decide) (by decide)
  exact ⟨by decide, by decide, by decide, h.2 ⟨"a.txt", "John,M,100"⟩⟩

/-- C10: the MLB loader establishes at ingestion that no returned column name
begins with `Unnamed` and that every returned row's `Team` cell differs from
`2TM`. -/
theorem mlb_load_invariant (df : Frame) :
    (∀ c ∈ (load_data df).columns, startsUnnamed c = false)
    ∧ ∀ r ∈ (load_data df).rows,
        cellAt (load_data df).columns r "Team" ≠ some (Value.str "2TM") := by
  constructor
  · intro c hc
    have hc2 : c ∈ df.columns.filter (fun c => !startsUnnamed c) := hc
    have := List.of_mem_filter hc2
    simpa using this
  · intro r hr
    have hr2 : r ∈ List.filter
        (fun r => !(cellAt (dropUnnamedCols df).columns r "Team" == some (Value.str "2TM")))
        (dropUnnamedCols df).rows := hr
    have hb := List.of_mem_filter hr2
    have hne : cellAt (dropUnnamedCols df).columns r "Team" ≠ some (Value.str "2TM") := by
      simpa using hb
    exact hne

/-- Witness for C10: on a concrete fetched table with an `Unnamed: 0` column
and a `2TM` row, the loaded table keeps no `Unnamed` column and no `2TM`
row. -/
theorem mlb_load_invariant_witness :
    startsUnnamed "Player Name" = false
    ∧ cellAt (load_data ⟨["Unnamed: 0", "Player Name", "Team"],
        [[Value.int 0, Value.str "A", Value.str "2TM"],
         [Value.int 1, Value.str "B", Value.str "NYY"]]⟩).columns
        [Value.str "B", Value.str "NYY"] "Team" ≠ some (Value.str "2TM") := by
  exact ⟨(mlb_load_invariant ⟨["Unnamed: 0", "Player Name", "Team"],
        [[Value.int 0, Value.str "A", Value.str "2TM"],
         [Value.int 1, Value.str "B", Value.str "NYY"]]⟩).1 "Player Name" (by decide),
    (mlb_load_invariant ⟨["Unnamed: 0", "Player Name", "Team"],
        [[Value.int 0, Value.str "A", Value.str "2TM"],
         [Value.int 1, Value.str "B", Value.str "NYY"]]⟩).2
      [Value.str "B", Value.str "NYY"] (by decide)⟩

/-- Witness for C2: one-entry archives for each loader, where the assembled
dataset is exactly the single entry's rows. -/
theorem assembled_dataset_rowwise_concat_witness :
    ([⟨"abc1999.txt", "John,M,100"⟩] : Archive).filter
        (fun e => endswith e.name ".txt") ≠ []
    ∧ (∀ e ∈ ([⟨"abc1999.txt", "John,M,100"⟩] : Archive).filter
          (fun e => endswith e.name ".txt"),
        extract_national_entry e
          = .ok ⟨["name", "sex", "count", "year"],
                 [[Value.str "John", Value.str "M", Value.int 100, Value.int 1999]]⟩)
    ∧ ([⟨"AK.TXT", "CA,F,2001,Mary,50"⟩] : Archive).filter
        (fun e => endswith e.name ".TXT") ≠ []
    ∧ (∀ e ∈ ([⟨"AK.TXT", "CA,F,2001,Mary,50"⟩] : Archive).filter
          (fun e => endswith e.name ".TXT"),
        extract_state_entry e
          = .ok ⟨["state", "sex", "year", "name", "count"],
                 [[Value.str "CA", Value.str "F", Value.int 2001,
                   Value.str "Mary", Value.int 50]]⟩)
    ∧ load_national_data [⟨"abc1999.txt", "John,M,100"⟩]
        = .ok ⟨["name", "sex", "count", "year"],
               [[Value.str "John", Value.str "M", Value.int 100, Value.int 1999]]⟩
    ∧ load_state_data [⟨"AK.TXT", "CA,F,2001,Mary,50"⟩]
        = .ok ⟨["state", "sex", "year", "name", "count"],
               [[Value.str "CA", Value.str "F", Value.int 2001,
                 Value.str "Mary", Value.int 50]]⟩ := by
  have h := assembled_dataset_rowwise_concat
    [⟨"abc1999.txt", "John,M,100"⟩] [⟨"AK.TXT", "CA,F,2001,Mary,50"⟩]
    (fun _ => ⟨["name", "sex", "count", "year"],
      [[Value.str "John", Value.str "M", Value.int 100, Value.int 1999]]⟩)
    (fun _ => ⟨["state", "sex", "year", "name", "count"],
      [[Value.str "CA", Value.str "F", Value.int 2001, Value.str "Mary", Value.int 50]]⟩)
    (by decide) (by decide) (by decide) (by decide)
  exact ⟨by decide, by decide, by decide, by decide, h.1.1, h.2.1⟩
